import Mathlib

/-!
Verification of the `update-profile` service core (Go) against its
natural-language specification, via a shallow embedding in Lean 4.

Embedding conventions:
* Go strings are Lean `String`; `len` on a Go string is byte length, modelled
  by `String.utf8ByteSize`.
* Go errors are modelled as `Option String` / `Except String _` carrying the
  exact message the code builds.
* I/O collaborators (HTTP client, DynamoDB `UpdateItem`, AWS config loading,
  `time.Now`) are oracle parameters; call sequencing is recorded in an
  explicit event trace.
* Go map iteration order is unspecified; `buildUpdateExpression` therefore
  takes the iteration order as a parameter ranging over permutations of the
  fixed field list.
-/

namespace UpdateProfile

/-- `models.UserProfile` from `models/models.go`. -/
structure UserProfile where
  NSID : String
  DisplayName : String
  Bio : String
  ProfilePicture : String
  ProfileBanner : String
  Theme : String
  PrimaryColor : String
  SecondaryColor : String
  UpdatedAt : String
  deriving Repr, DecidableEq

/-- `models.RequestPayload` from `models/models.go`. -/
structure RequestPayload where
  Repo : String
  Profile : UserProfile
  BearerToken : String
  deriving Repr, DecidableEq

/-! ### RFC 3339 timestamp validity (model of Go `time.Parse(time.RFC3339, s)`) -/

def isDigitChar (c : Char) : Bool := '0' ≤ c && c ≤ '9'

def digitsToNat (cs : List Char) : Nat :=
  cs.foldl (fun a c => a * 10 + (c.toNat - 48)) 0

def isLeapYear (y : Nat) : Bool :=
  (y % 4 == 0 && y % 100 != 0) || y % 400 == 0

def daysInMonth (y m : Nat) : Nat :=
  if m == 2 then (if isLeapYear y then 29 else 28)
  else if m == 4 || m == 6 || m == 9 || m == 11 then 30
  else 31

/-- Timezone suffix: `Z` or `±hh:mm`. -/
def validOffset : List Char → Bool
  | ['Z'] => true
  | [c, h1, h2, ':', m1, m2] =>
      (c == '+' || c == '-') && isDigitChar h1 && isDigitChar h2 &&
      isDigitChar m1 && isDigitChar m2 &&
      digitsToNat [h1, h2] ≤ 23 && digitsToNat [m1, m2] ≤ 59
  | _ => false

/-- Optional fractional seconds (a dot followed by at least one digit), then
the timezone suffix. -/
def validSecondsTail : List Char → Bool
  | '.' :: rest =>
      (rest.takeWhile isDigitChar) ≠ [] && validOffset (rest.dropWhile isDigitChar)
  | cs => validOffset cs

/-- Model of Go `time.Parse(time.RFC3339, s)` succeeding: the string has shape
`YYYY-MM-DDThh:mm:ss[.fff…](Z|±hh:mm)` with all components in range. -/
def validRFC3339 (s : String) : Bool :=
  match s.toList with
  | y1 :: y2 :: y3 :: y4 :: '-' :: mo1 :: mo2 :: '-' :: d1 :: d2 :: 'T' ::
    h1 :: h2 :: ':' :: mi1 :: mi2 :: ':' :: s1 :: s2 :: rest =>
      isDigitChar y1 && isDigitChar y2 && isDigitChar y3 && isDigitChar y4 &&
      isDigitChar mo1 && isDigitChar mo2 && isDigitChar d1 && isDigitChar d2 &&
      isDigitChar h1 && isDigitChar h2 && isDigitChar mi1 && isDigitChar mi2 &&
      isDigitChar s1 && isDigitChar s2 &&
      (let y := digitsToNat [y1, y2, y3, y4]
       let mo := digitsToNat [mo1, mo2]
       let d := digitsToNat [d1, d2]
       1 ≤ mo && mo ≤ 12 && 1 ≤ d && d ≤ daysInMonth y mo) &&
      digitsToNat [h1, h2] ≤ 23 && digitsToNat [mi1, mi2] ≤ 59 &&
      digitsToNat [s1, s2] ≤ 59 &&
      validSecondsTail rest
  | _ => false

/-! ### Validator (`validateProfile` in `handler/handler.go`) -/

/-- First rule of `validateProfile`: NSID must equal the fixed constant. -/
def ruleNSID : (UserProfile → Bool) × String :=
  (fun p => p.NSID != "social.shareframe.profile",
   "invalid NSID: only social.shareframe.profile is allowed")

/-- Second rule: display name must be non-empty. -/
def ruleDisplayName : (UserProfile → Bool) × String :=
  (fun p => p.DisplayName == "", "displayName must be present")

/-- Third rule: bio is at most 256 bytes. -/
def ruleBio : (UserProfile → Bool) × String :=
  (fun p => p.Bio.utf8ByteSize > 256, "bio must be 256 characters or fewer")

/-- Fourth rule: theme, when non-empty, is one of the three allowed values. -/
def ruleTheme : (UserProfile → Bool) × String :=
  (fun p => p.Theme != "" && p.Theme != "light" && p.Theme != "dark" && p.Theme != "custom",
   "theme must be light, dark, or custom")

/-- Fifth rule: the update timestamp parses as RFC 3339. -/
def ruleUpdatedAt : (UserProfile → Bool) × String :=
  (fun p => !validRFC3339 p.UpdatedAt, "invalid datetime format for updatedAt")

/-- The five rules of `validateProfile` in source order, each paired with the
exact error string appended when it is violated (the pair's first component
tests for a violation). -/
def profileRules : List ((UserProfile → Bool) × String) :=
  [ruleNSID, ruleDisplayName, ruleBio, ruleTheme, ruleUpdatedAt]

/-- The `validationErrors` slice accumulated by `validateProfile`, in the
order the code appends them. -/
def validationReasons (p : UserProfile) : List String :=
  (if p.NSID != "social.shareframe.profile" then
      ["invalid NSID: only social.shareframe.profile is allowed"] else []) ++
  (if p.DisplayName == "" then ["displayName must be present"] else []) ++
  (if p.Bio.utf8ByteSize > 256 then ["bio must be 256 characters or fewer"] else []) ++
  (if p.Theme != "" && p.Theme != "light" && p.Theme != "dark" && p.Theme != "custom" then
      ["theme must be light, dark, or custom"] else []) ++
  (if !validRFC3339 p.UpdatedAt then ["invalid datetime format for updatedAt"] else [])

/-- `validateProfile` from `handler/handler.go`: `none` on success, otherwise
the single aggregated error message the Go code returns. -/
def validateProfile (p : UserProfile) : Option String :=
  let errs := validationReasons p
  if errs.isEmpty then none
  else some ("profile validation failed: " ++ String.intercalate "; " errs)

/-! ### Expression Builder (`buildUpdateExpression` in `dynamodb/dynamo.go`)

The Go code iterates the literal map
`fields := map[string]string{"DisplayName": …, …, "SecondaryColor": …}`.
Go map iteration order is unspecified and randomized, so the builder is
parameterized by an iteration `order`, which in any real execution is some
permutation of the seven keys. -/

/-- The seven keys of the `fields` map in `buildUpdateExpression`. -/
inductive ProfileField
  | displayName | bio | profilePicture | profileBanner
  | theme | primaryColor | secondaryColor
  deriving Repr, DecidableEq, Fintype

/-- Attribute name each map key carries (the map key itself). -/
def fieldName : ProfileField → String
  | .displayName => "DisplayName"
  | .bio => "Bio"
  | .profilePicture => "ProfilePicture"
  | .profileBanner => "ProfileBanner"
  | .theme => "Theme"
  | .primaryColor => "PrimaryColor"
  | .secondaryColor => "SecondaryColor"

/-- Profile value each map key is bound to in the `fields` literal. -/
def fieldValue (p : UserProfile) : ProfileField → String
  | .displayName => p.DisplayName
  | .bio => p.Bio
  | .profilePicture => p.ProfilePicture
  | .profileBanner => p.ProfileBanner
  | .theme => p.Theme
  | .primaryColor => p.PrimaryColor
  | .secondaryColor => p.SecondaryColor

/-- The keys of the `fields` map, in source-literal order. -/
def allFields : List ProfileField :=
  [.displayName, .bio, .profilePicture, .profileBanner,
   .theme, .primaryColor, .secondaryColor]

/-- The `updateParts` slice: one `"<Field> = :<Field>"` clause per non-empty
field in iteration order, then the unconditional `UpdatedAt` clause. -/
def updateParts (order : List ProfileField) (p : UserProfile) : List String :=
  ((order.filter (fun f => fieldValue p f ≠ "")).map
      (fun f => fieldName f ++ " = :" ++ fieldName f)) ++
  ["UpdatedAt = :UpdatedAt"]

/-- The `exprValues` map, as an association list: `:<Field> ↦ value` per
non-empty field in iteration order, then `:UpdatedAt ↦ now`. `now` models
`time.Now().Format(time.RFC3339)`. -/
def exprValues (order : List ProfileField) (now : String) (p : UserProfile) :
    List (String × String) :=
  ((order.filter (fun f => fieldValue p f ≠ "")).map
      (fun f => (":" ++ fieldName f, fieldValue p f))) ++
  [(":UpdatedAt", now)]

/-- `buildUpdateExpression` from `dynamodb/dynamo.go`: the joined update
expression and the value bindings. -/
def buildUpdateExpression (order : List ProfileField) (now : String)
    (p : UserProfile) : String × List (String × String) :=
  (String.intercalate ", " (updateParts order p), exprValues order now p)

/-! ### Secondary Store Client (`UpdateUserInDynamoDB` in `dynamodb/dynamo.go`) -/

/-- The argument of the single `UpdateItem` call, with the fields the Go code
sets. -/
structure UpdateItemInput where
  tableName : String
  keyAttr : String
  keyValue : String
  updateExpression : String
  expressionAttributeValues : List (String × String)
  deriving Repr, DecidableEq

/-- `UpdateUserInDynamoDB` from `dynamodb/dynamo.go`. `storeErr` is the
oracle for the outcome of the DynamoDB `UpdateItem` call (`some e` = the SDK
returned error `e`). Returns the Go error (`none` = nil) together with the
list of `UpdateItem` calls issued. -/
def UpdateUserInDynamoDB (storeErr : Option String) (order : List ProfileField)
    (now : String) (userID : String) (p : UserProfile) :
    Option String × List UpdateItemInput :=
  if userID = "" then
    (some "userID cannot be empty", [])
  else if (buildUpdateExpression order now p).2.length = 1 then
    (some "no valid fields provided to update", [])
  else
    match storeErr with
    | some e =>
        (some ("failed to update user in DynamoDB: " ++ e),
         [{ tableName := "Users", keyAttr := "UserId", keyValue := userID,
            updateExpression := "SET " ++ (buildUpdateExpression order now p).1,
            expressionAttributeValues := (buildUpdateExpression order now p).2 }])
    | none =>
        (none,
         [{ tableName := "Users", keyAttr := "UserId", keyValue := userID,
            updateExpression := "SET " ++ (buildUpdateExpression order now p).1,
            expressionAttributeValues := (buildUpdateExpression order now p).2 }])

/-! ### Record Service Client (`updateProfileInATProtocol` in `handler/handler.go`) -/

/-- Oracle for the HTTP POST to the putRecord endpoint: either a transport
error from `client.Do`, or a response with its numeric status code and the
`resp.Status` text. -/
inductive HTTPResult
  | transportError (msg : String)
  | response (statusCode : Nat) (status : String)
  deriving Repr, DecidableEq

/-- `updateProfileInATProtocol` from `handler/handler.go`, with the HTTP
exchange as an oracle (request marshalling of string-field structs cannot
fail and is elided). Success is exactly status code 200. -/
def updateProfileInATProtocol (http : HTTPResult) : Except String String :=
  match http with
  | .transportError m => .error m
  | .response code status =>
      if code ≠ 200 then .error ("failed to update profile: " ++ status)
      else .ok "Profile successfully updated"

/-! ### Orchestrator (`HandleRequest` in `handler/handler.go`) -/

/-- Downstream calls the orchestrator makes, in order. -/
inductive Event
  | recordCall
  | storeCall
  deriving Repr, DecidableEq

/-- Result of one invocation: the `map[string]string` payload (as an
association list), the invocation-level error (`none` = nil), and the trace
of downstream calls. -/
structure HandleResult where
  payload : List (String × String)
  invocationError : Option String
  trace : List Event
  deriving Repr, DecidableEq

/-- `HandleRequest` from `handler/handler.go`. Oracles: `clientInit` is the
error from `dynamodb.NewDynamoClient` (`none` = success), `http` the record
service HTTP exchange, `storeErr` the DynamoDB `UpdateItem` outcome, `order`
the `fields` map iteration order, `now` the formatted current time. -/
def HandleRequest (clientInit : Option String) (http : HTTPResult)
    (storeErr : Option String) (order : List ProfileField) (now : String)
    (request : RequestPayload) : HandleResult :=
  match clientInit with
  | some e => ⟨[("error", "Internal server error")], some e, []⟩
  | none =>
    let profile := request.Profile
    match validateProfile profile with
    | some verr => ⟨[("error", verr)], none, []⟩
    | none =>
      match updateProfileInATProtocol http with
      | .error e => ⟨[("error", e)], none, [.recordCall]⟩
      | .ok response =>
        let dyn := UpdateUserInDynamoDB storeErr order now request.Repo profile
        match dyn.1 with
        | some derr =>
            ⟨[("error", "Failed to update profile in database")], some derr,
              [.recordCall, .storeCall]⟩
        | none =>
            ⟨[("message", "Profile updated successfully"), ("response", response)],
              none, [.recordCall, .storeCall]⟩

/-! ### Spec-side format predicates

`validateProfile` in `handler/handler.go` contains no URL or hex-color check;
the following predicates formalise the spec's wording of those format rules
so that the corresponding claims can be stated and compared with the code. -/

def isHostChar (c : Char) : Bool := c.isAlphanum || c == '.' || c == '-'

/-- Strip a leading `http://` or `https://` scheme, if present. -/
def dropScheme : List Char → List Char
  | 'h' :: 't' :: 't' :: 'p' :: ':' :: '/' :: '/' :: rest => rest
  | 'h' :: 't' :: 't' :: 'p' :: 's' :: ':' :: '/' :: '/' :: rest => rest
  | cs => cs

/-- Modelled from the spec: "generic URL shape: optional scheme
(`http`/`https`), host, optional port, optional path". Not present anywhere
in the source. -/
def specUrlShape (s : String) : Bool :=
  let cs := dropScheme s.toList
  let host := cs.takeWhile isHostChar
  let afterHost := cs.dropWhile isHostChar
  let afterPort :=
    match afterHost with
    | ':' :: r =>
        if (r.takeWhile isDigitChar) ≠ [] then some (r.dropWhile isDigitChar) else none
    | r => some r
  host ≠ [] &&
    (match afterPort with
     | none => false
     | some [] => true
     | some ('/' :: path) => path.all (fun c => c ≠ ' ')
     | some _ => false)

def isHexDigitChar (c : Char) : Bool :=
  isDigitChar c || ('a' ≤ c && c ≤ 'f') || ('A' ≤ c && c ≤ 'F')

/-- Modelled from the spec: "hex color shape: `#` followed by 3 or 6 hex
digits". Not present anywhere in the source. -/
def specHexColorShape (s : String) : Bool :=
  match s.toList with
  | '#' :: rest =>
      (rest.length == 3 || rest.length == 6) && rest.all isHexDigitChar
  | _ => false

/-! ### Concrete sample inputs (mirroring the repository's own test data) -/

/-- A profile passing every rule of `validateProfile`; field values follow
the repository's DynamoDB tests. -/
def sampleProfile : UserProfile :=
  { NSID := "social.shareframe.profile"
    DisplayName := "John Doe"
    Bio := "Test Bio"
    ProfilePicture := "picture.jpg"
    ProfileBanner := "banner.jpg"
    Theme := "dark"
    PrimaryColor := "blue"
    SecondaryColor := "red"
    UpdatedAt := "2024-01-01T00:00:00Z" }

/-- A profile violating the NSID rule and the display-name rule. -/
def invalidProfile : UserProfile :=
  { sampleProfile with NSID := "bad.nsid", DisplayName := "" }

/-- A profile whose seven builder fields are all empty. -/
def emptyProfile : UserProfile :=
  { NSID := "social.shareframe.profile", DisplayName := "", Bio := "",
    ProfilePicture := "", ProfileBanner := "", Theme := "",
    PrimaryColor := "", SecondaryColor := "", UpdatedAt := "" }

def sampleNow : String := "2024-01-01T00:00:00Z"

/-! ### Helper lemmas -/

lemma validationReasons_eq_filter (p : UserProfile) :
    validationReasons p = (profileRules.filter (fun r => r.1 p)).map Prod.snd := by
  simp only [validationReasons, profileRules, ruleNSID, ruleDisplayName, ruleBio,
    ruleTheme, ruleUpdatedAt, List.filter_cons, List.filter_nil]
  split_ifs <;> simp_all <;> omega

lemma validateProfile_eq_none_iff (p : UserProfile) :
    validateProfile p = none ↔ validationReasons p = [] := by
  simp only [validateProfile]
  split <;> simp_all [List.isEmpty_iff]

lemma validateProfile_eq_some_of_ne_nil (p : UserProfile)
    (h : validationReasons p ≠ []) :
    validateProfile p
      = some ("profile validation failed: "
          ++ String.intercalate "; " (validationReasons p)) := by
  simp only [validateProfile]
  split
  · simp_all [List.isEmpty_iff]
  · rfl

lemma mem_allFields : ∀ f : ProfileField, f ∈ allFields := by decide

lemma allFields_nodup : allFields.Nodup := by decide

lemma clause_injective :
    Function.Injective (fun f => fieldName f ++ " = :" ++ fieldName f) := by
  intro a b
  revert a b
  decide

lemma clause_ne_updatedAt :
    ∀ f : ProfileField, fieldName f ++ " = :" ++ fieldName f ≠ "UpdatedAt = :UpdatedAt" := by
  decide

lemma filter_populated_eq_nil_iff {order : List ProfileField} (p : UserProfile)
    (h : order.Perm allFields) :
    order.filter (fun f => fieldValue p f ≠ "") = []
      ↔ ∀ f ∈ allFields, fieldValue p f = "" := by
  rw [List.filter_eq_nil_iff]
  constructor
  · intro hall f hf
    have := hall f (h.mem_iff.mpr hf)
    simpa using this
  · intro hall f hf
    have := hall f (h.mem_iff.mp hf)
    simp [this]

lemma exprValues_length {order : List ProfileField} (now : String) (p : UserProfile)
    (h : order.Perm allFields) :
    (exprValues order now p).length
      = (allFields.filter (fun f => fieldValue p f ≠ "")).length + 1 := by
  have hp := (h.filter (fun f => !decide (fieldValue p f = ""))).length_eq
  simp [exprValues, hp]

/-! ### Claim theorems: the Validator -/

/-- C6: `validateProfile` evaluates every rule without short-circuiting: it
returns no error exactly when no rule is violated, and on any violation it
returns the single aggregated message listing every violated rule's
human-readable reason, joined in the fixed rule order — in particular each
violated rule's reason appears in the list. -/
theorem validateProfile_aggregates_all_violations (p : UserProfile) :
    (validateProfile p = none ↔ ∀ r ∈ profileRules, r.1 p = false) ∧
    (∀ r ∈ profileRules, r.1 p = true →
      validateProfile p
        = some ("profile validation failed: "
            ++ String.intercalate "; "
                ((profileRules.filter (fun q => q.1 p)).map Prod.snd)) ∧
      r.2 ∈ (profileRules.filter (fun q => q.1 p)).map Prod.snd) := by
  constructor
  · rw [validateProfile_eq_none_iff, validationReasons_eq_filter]
    simp [List.filter_eq_nil_iff]
  · intro r hr hcond
    have hmem : r ∈ profileRules.filter (fun q => q.1 p) :=
      List.mem_filter.mpr ⟨hr, hcond⟩
    have hne : validationReasons p ≠ [] := by
      rw [validationReasons_eq_filter]
      intro hnil
      rw [List.map_eq_nil_iff] at hnil
      rw [hnil] at hmem
      simp at hmem
    refine ⟨?_, List.mem_map.mpr ⟨r, hmem, rfl⟩⟩
    rw [validateProfile_eq_some_of_ne_nil p hne, validationReasons_eq_filter]

/-- Witness for C6: the aggregated message and the NSID reason's membership
at a concrete profile violating two rules. -/
theorem validateProfile_aggregates_all_violations_witness :
    validateProfile invalidProfile
      = some ("profile validation failed: "
          ++ String.intercalate "; "
              ((profileRules.filter (fun q => q.1 invalidProfile)).map Prod.snd)) ∧
    ruleNSID.2 ∈ (profileRules.filter (fun q => q.1 invalidProfile)).map Prod.snd :=
  (validateProfile_aggregates_all_violations invalidProfile).2 ruleNSID
    (by simp [profileRules]) (by decide)

/-- C10: the implemented policy requires a non-empty display name (reason
"displayName must be present"), and an NSID mismatch is not an immediate
standalone failure: its reason, together with every other violated rule's
reason, is aggregated into the single combined validation error. -/
theorem displayName_required_nsid_aggregated (p : UserProfile) :
    (p.DisplayName = "" →
      "displayName must be present" ∈ validationReasons p ∧
      validateProfile p ≠ none) ∧
    (p.NSID ≠ "social.shareframe.profile" →
      "invalid NSID: only social.shareframe.profile is allowed" ∈ validationReasons p ∧
      (∀ r ∈ profileRules, r.1 p = true → r.2 ∈ validationReasons p) ∧
      validateProfile p
        = some ("profile validation failed: "
            ++ String.intercalate "; " (validationReasons p))) := by
  constructor
  · intro hdn
    have hmem : "displayName must be present" ∈ validationReasons p := by
      simp [validationReasons, hdn]
    refine ⟨hmem, ?_⟩
    rw [Ne, validateProfile_eq_none_iff]
    intro hnil
    rw [hnil] at hmem
    simp at hmem
  · intro hnsid
    have hmem :
        "invalid NSID: only social.shareframe.profile is allowed" ∈ validationReasons p := by
      simp [validationReasons, hnsid]
    have hne : validationReasons p ≠ [] := by
      intro hnil
      rw [hnil] at hmem
      simp at hmem
    refine ⟨hmem, ?_, validateProfile_eq_some_of_ne_nil p hne⟩
    intro r hr hcond
    rw [validationReasons_eq_filter]
    exact List.mem_map.mpr ⟨r, List.mem_filter.mpr ⟨hr, hcond⟩, rfl⟩

/-- Witness for C10 at a profile with empty display name and wrong NSID. -/
theorem displayName_required_nsid_aggregated_witness :
    ("displayName must be present" ∈ validationReasons invalidProfile ∧
      validateProfile invalidProfile ≠ none) ∧
    (ruleDisplayName.2 ∈ validationReasons invalidProfile ∧
      validateProfile invalidProfile
        = some ("profile validation failed: "
            ++ String.intercalate "; " (validationReasons invalidProfile))) := by
  have h := displayName_required_nsid_aggregated invalidProfile
  have h2 := h.2 (by decide)
  exact ⟨h.1 rfl, h2.2.1 ruleDisplayName (by simp [profileRules]) (by decide), h2.2.2⟩

/-- C4 counterexample: a profile whose picture URL is non-empty and fails the
spec's generic URL shape, yet `validateProfile` accepts it — the code never
checks URL fields. -/
theorem url_shape_not_validated_cex :
    ({ sampleProfile with ProfilePicture := "not a url" } : UserProfile).ProfilePicture ≠ "" ∧
    specUrlShape "not a url" = false ∧
    validateProfile { sampleProfile with ProfilePicture := "not a url" } = none := by
  decide

/-- C4 (amended): `validateProfile` performs no check at all on the picture
and banner URL fields — replacing them by arbitrary strings never changes
the validation result. -/
theorem validateProfile_ignores_urls (p : UserProfile) (u b : String) :
    validateProfile { p with ProfilePicture := u, ProfileBanner := b }
      = validateProfile p := rfl

/-- C5 counterexample: a profile whose primary color is "blue" (non-empty,
not a `#`-hex shape — the repository's own test data), yet `validateProfile`
accepts it — the code never checks color fields. -/
theorem hex_color_not_validated_cex :
    sampleProfile.PrimaryColor ≠ "" ∧
    specHexColorShape sampleProfile.PrimaryColor = false ∧
    validateProfile sampleProfile = none := by
  decide

/-- C5 (amended): `validateProfile` performs no check at all on the primary
and secondary color fields — replacing them by arbitrary strings never
changes the validation result. -/
theorem validateProfile_ignores_colors (p : UserProfile) (c₁ c₂ : String) :
    validateProfile { p with PrimaryColor := c₁, SecondaryColor := c₂ }
      = validateProfile p := rfl

/-! ### Claim theorems: the Expression Builder -/

/-- C3 counterexample: two legitimate map-iteration orders (both are
permutations of the seven keys of the `fields` map literal) produce different
expression strings for the same populated profile — the field-clause order is
not fixed, because Go map iteration order is unspecified. -/
theorem clause_order_not_deterministic_cex :
    allFields.Perm allFields ∧
    allFields.reverse.Perm allFields ∧
    (∃ f ∈ allFields, fieldValue sampleProfile f ≠ "") ∧
    (buildUpdateExpression allFields sampleNow sampleProfile).1
      ≠ (buildUpdateExpression allFields.reverse sampleNow sampleProfile).1 :=
  ⟨List.Perm.refl _, List.reverse_perm _, by decide, by decide⟩

/-- C3 (amended): for every map-iteration order (any permutation of the seven
field keys) and every profile with at least one populated field, the binding
list has size (number of populated fields) + 1, the clause list is
duplicate-free, contains the `"<Field> = :<Field>"` clause exactly for the
populated fields, ends with the `UpdatedAt` clause, and the expression is
those clauses joined with ", " — but the relative order of the field clauses
follows the map-iteration order, which is not fixed. -/
theorem buildUpdateExpression_clauses (order : List ProfileField) (now : String)
    (p : UserProfile) (h : order.Perm allFields)
    (_hpop : ∃ f ∈ allFields, fieldValue p f ≠ "") :
    (buildUpdateExpression order now p).2.length
        = (allFields.filter (fun f => fieldValue p f ≠ "")).length + 1 ∧
    (updateParts order p).Nodup ∧
    (∀ f : ProfileField,
        (fieldName f ++ " = :" ++ fieldName f) ∈ updateParts order p
          ↔ fieldValue p f ≠ "") ∧
    (updateParts order p).getLast? = some "UpdatedAt = :UpdatedAt" ∧
    (buildUpdateExpression order now p).1
        = String.intercalate ", " (updateParts order p) := by
  refine ⟨exprValues_length now p h, ?_, ?_, List.getLast?_concat _, rfl⟩
  · unfold updateParts
    rw [List.nodup_append]
    refine ⟨?_, by simp, ?_⟩
    · exact List.Nodup.map clause_injective
        (List.Nodup.filter _ (h.nodup_iff.mpr allFields_nodup))
    · intro a ha hb
      obtain ⟨g, _, rfl⟩ := List.mem_map.mp ha
      simp only [List.mem_singleton] at hb
      exact clause_ne_updatedAt g hb
  · intro f
    unfold updateParts
    rw [List.mem_append]
    constructor
    · rintro (hm | hm)
      · obtain ⟨g, hg, hge⟩ := List.mem_map.mp hm
        obtain rfl : g = f := clause_injective hge
        simpa using (List.mem_filter.mp hg).2
      · simp only [List.mem_singleton] at hm
        exact absurd hm (clause_ne_updatedAt f)
    · intro hf
      refine Or.inl (List.mem_map.mpr ⟨f, List.mem_filter.mpr ⟨?_, by simpa using hf⟩, rfl⟩)
      exact h.mem_iff.mpr (mem_allFields f)

/-- Witness for C3 (amended) at the source-literal order and a profile with
all seven fields populated. -/
theorem buildUpdateExpression_clauses_witness :
    (buildUpdateExpression allFields sampleNow sampleProfile).2.length
        = (allFields.filter (fun f => fieldValue sampleProfile f ≠ "")).length + 1 ∧
    (updateParts allFields sampleProfile).getLast? = some "UpdatedAt = :UpdatedAt" := by
  have h := buildUpdateExpression_clauses allFields sampleNow sampleProfile
      (List.Perm.refl _) (by decide)
  exact ⟨h.1, h.2.2.2.1⟩

/-- C8: for any iteration order, when every builder field is empty the result
is exactly the `UpdatedAt` expression with the single `:UpdatedAt` binding;
in general the binding list always contains the `:UpdatedAt` key, and its
size is 1 exactly when no field was populated. -/
theorem buildUpdateExpression_empty_profile (order : List ProfileField)
    (now : String) (p : UserProfile) (h : order.Perm allFields) :
    ((∀ f ∈ allFields, fieldValue p f = "") →
      buildUpdateExpression order now p
        = ("UpdatedAt = :UpdatedAt", [(":UpdatedAt", now)])) ∧
    ":UpdatedAt" ∈ (exprValues order now p).map Prod.fst ∧
    ((exprValues order now p).length = 1 ↔ ∀ f ∈ allFields, fieldValue p f = "") := by
  refine ⟨?_, ?_, ?_⟩
  · intro hall
    have hnil : order.filter (fun f => fieldValue p f ≠ "") = [] :=
      (filter_populated_eq_nil_iff p h).mpr hall
    simp only [buildUpdateExpression, updateParts, exprValues, hnil,
      List.map_nil, List.nil_append]
    rfl
  · simp [exprValues]
  · rw [exprValues_length now p h]
    constructor
    · intro hlen
      have hzero : (allFields.filter (fun f => fieldValue p f ≠ "")).length = 0 := by
        omega
      exact (filter_populated_eq_nil_iff p (List.Perm.refl _)).mp
        (List.length_eq_zero.mp hzero)
    · intro hall
      simpa using hall

/-- Witness for C8 at the all-empty profile. -/
theorem buildUpdateExpression_empty_profile_witness :
    buildUpdateExpression allFields sampleNow emptyProfile
      = ("UpdatedAt = :UpdatedAt", [(":UpdatedAt", sampleNow)]) ∧
    ":UpdatedAt" ∈ (exprValues allFields sampleNow emptyProfile).map Prod.fst := by
  have h := buildUpdateExpression_empty_profile allFields sampleNow emptyProfile
      (List.Perm.refl _)
  exact ⟨h.1 (by decide), h.2.1⟩

/-! ### Claim theorems: the Secondary Store Client -/

/-- C9: `UpdateUserInDynamoDB` rejects an empty subject id without any store
operation; with a non-empty id but no populated field it fails with the
no-fields error, again without any store operation; otherwise it issues
exactly one `UpdateItem` call carrying the built expression and bindings, and
an error from that call is wrapped as the DynamoDB write failure (nil error
on store success). -/
theorem updateUser_preconditions_and_single_call (storeErr : Option String)
    (order : List ProfileField) (now : String) (userID : String) (p : UserProfile)
    (h : order.Perm allFields) :
    (userID = "" →
      UpdateUserInDynamoDB storeErr order now userID p
        = (some "userID cannot be empty", [])) ∧
    (userID ≠ "" → (∀ f ∈ allFields, fieldValue p f = "") →
      UpdateUserInDynamoDB storeErr order now userID p
        = (some "no valid fields provided to update", [])) ∧
    (userID ≠ "" → (∃ f ∈ allFields, fieldValue p f ≠ "") →
      (UpdateUserInDynamoDB storeErr order now userID p).2
        = [{ tableName := "Users", keyAttr := "UserId", keyValue := userID,
             updateExpression := "SET " ++ (buildUpdateExpression order now p).1,
             expressionAttributeValues := (buildUpdateExpression order now p).2 }] ∧
      (UpdateUserInDynamoDB storeErr order now userID p).1
        = storeErr.map (fun e => "failed to update user in DynamoDB: " ++ e)) := by
  refine ⟨?_, ?_, ?_⟩
  · intro hid
    simp [UpdateUserInDynamoDB, hid]
  · intro hid hall
    have hlen : (buildUpdateExpression order now p).2.length = 1 := by
      show (exprValues order now p).length = 1
      simp only [exprValues, List.length_append, List.length_map,
        List.length_cons, List.length_nil]
      rw [(filter_populated_eq_nil_iff p h).mpr hall]
      rfl
    unfold UpdateUserInDynamoDB
    rw [if_neg hid, if_pos hlen]
  · intro hid hpop
    have hlen : (buildUpdateExpression order now p).2.length ≠ 1 := by
      show (exprValues order now p).length ≠ 1
      rw [exprValues_length now p h]
      obtain ⟨f, hf, hfv⟩ := hpop
      have hmem : f ∈ allFields.filter (fun g => fieldValue p g ≠ "") :=
        List.mem_filter.mpr ⟨hf, by simpa using hfv⟩
      have hpos := List.length_pos.mpr (List.ne_nil_of_mem hmem)
      omega
    cases storeErr <;> simp [UpdateUserInDynamoDB, hid, hlen]

/-- Witness for C9: a single `UpdateItem` call and nil error at concrete
inputs. -/
theorem updateUser_preconditions_and_single_call_witness :
    (UpdateUserInDynamoDB none allFields sampleNow "user123" sampleProfile).2
      = [{ tableName := "Users", keyAttr := "UserId", keyValue := "user123",
           updateExpression :=
             "SET " ++ (buildUpdateExpression allFields sampleNow sampleProfile).1,
           expressionAttributeValues :=
             (buildUpdateExpression allFields sampleNow sampleProfile).2 }] ∧
    (UpdateUserInDynamoDB none allFields sampleNow "user123" sampleProfile).1
      = (none : Option String).map (fun e => "failed to update user in DynamoDB: " ++ e) :=
  (updateUser_preconditions_and_single_call none allFields sampleNow "user123"
    sampleProfile (List.Perm.refl _)).2.2 (by decide) (by decide)

/-! ### Claim theorems: the Orchestrator -/

/-- C7: when the store client constructs and the profile fails validation,
`HandleRequest` returns the failure payload with the validation message and a
nil invocation-level error, and performs neither the record-service write nor
the store write (the downstream call trace is empty). -/
theorem validation_failure_no_invocation_error
    (http : HTTPResult) (storeErr : Option String) (order : List ProfileField)
    (now : String) (request : RequestPayload) (verr : String)
    (hv : validateProfile request.Profile = some verr) :
    HandleRequest none http storeErr order now request
      = ⟨[("error", verr)], none, []⟩ := by
  simp only [HandleRequest, hv]

/-- Witness for C7 at a profile violating the NSID and display-name rules. -/
theorem validation_failure_no_invocation_error_witness :
    HandleRequest none (.response 200 "200 OK") none allFields sampleNow
        ⟨"user123", invalidProfile, "token"⟩
      = ⟨[("error", "profile validation failed: invalid NSID: only social.shareframe.profile is allowed; displayName must be present")],
         none, []⟩ :=
  validation_failure_no_invocation_error _ _ _ _ _ _ (by decide)

/-- C1 counterexample: with a valid profile and the record service answering
HTTP 500, `HandleRequest` returns a nil invocation-level error (not a non-nil
one), and the failure payload carries the record-service error text itself —
the internal error string — rather than a generic message. -/
theorem record_failure_not_escalated_cex :
    validateProfile sampleProfile = none ∧
    updateProfileInATProtocol (.response 500 "500 Internal Server Error")
      = .error "failed to update profile: 500 Internal Server Error" ∧
    (HandleRequest none (.response 500 "500 Internal Server Error") none allFields
        sampleNow ⟨"user123", sampleProfile, "token"⟩).invocationError = none ∧
    (HandleRequest none (.response 500 "500 Internal Server Error") none allFields
        sampleNow ⟨"user123", sampleProfile, "token"⟩).payload
      = [("error", "failed to update profile: 500 Internal Server Error")] :=
  ⟨rfl, rfl, rfl, rfl⟩

/-- C1 (amended): for every request whose profile passes validation, if the
record-service write fails then `HandleRequest` returns the failure payload
carrying that error's own text together with a nil invocation-level error —
the failure is not escalated as an invocation error, and the user-facing
message is the internal error text. -/
theorem record_failure_payload_nil_error
    (http : HTTPResult) (storeErr : Option String) (order : List ProfileField)
    (now : String) (request : RequestPayload) (e : String)
    (hv : validateProfile request.Profile = none)
    (hr : updateProfileInATProtocol http = .error e) :
    HandleRequest none http storeErr order now request
      = ⟨[("error", e)], none, [.recordCall]⟩ := by
  simp only [HandleRequest, hv, hr]

/-- Witness for C1 (amended) at a concrete HTTP 500 answer. -/
theorem record_failure_payload_nil_error_witness :
    HandleRequest none (.response 500 "500 Internal Server Error") none allFields
        sampleNow ⟨"user123", sampleProfile, "token"⟩
      = ⟨[("error", "failed to update profile: 500 Internal Server Error")], none,
         [Event.recordCall]⟩ :=
  record_failure_payload_nil_error _ _ _ _ _ _ (by decide) rfl

/-- C2: the store write is only ever made after the record-service write has
returned success: whenever the store call appears in the downstream trace,
the record write succeeded, and the trace is exactly the record call followed
by the store call (record happens-before store; no store write when the
record write failed). -/
theorem store_write_requires_record_success
    (clientInit : Option String) (http : HTTPResult) (storeErr : Option String)
    (order : List ProfileField) (now : String) (request : RequestPayload)
    (h : Event.storeCall ∈ (HandleRequest clientInit http storeErr order now request).trace) :
    (∃ r, updateProfileInATProtocol http = .ok r) ∧
    (HandleRequest clientInit http storeErr order now request).trace
      = [Event.recordCall, Event.storeCall] := by
  cases clientInit with
  | some e => simp [HandleRequest] at h
  | none =>
    cases hv : validateProfile request.Profile with
    | some verr => simp [HandleRequest, hv] at h
    | none =>
      cases hr : updateProfileInATProtocol http with
      | error e => simp [HandleRequest, hv, hr] at h
      | ok r =>
        refine ⟨⟨r, rfl⟩, ?_⟩
        cases hd : (UpdateUserInDynamoDB storeErr order now request.Repo request.Profile).1 with
        | some derr => simp [HandleRequest, hv, hr, hd]
        | none => simp [HandleRequest, hv, hr, hd]

/-- Witness for C2 at a fully successful concrete run. -/
theorem store_write_requires_record_success_witness :
    (∃ r, updateProfileInATProtocol (.response 200 "200 OK") = .ok r) ∧
    (HandleRequest none (.response 200 "200 OK") none allFields sampleNow
        ⟨"user123", sampleProfile, "token"⟩).trace
      = [Event.recordCall, Event.storeCall] :=
  store_write_requires_record_success _ _ _ _ _ _ (by decide)

end UpdateProfile
